import Mathlib

/-!
Verification development for the sandboxed analysis-code execution engine of
the ai-powered-data-assistant repository.

The repository wires a `SandboxedCodeExecutor` (module
`src/infrastructure/execution/code_executor.py`, imported by
`src/presentation/app.py`) into `ProcessQuestionUseCase`
(`src/application/use_cases/process_question_use_case.py`), which also talks
to a `CSVLoader` (`src/infrastructure/persistence/csv_loader.py`).  The source
of the executor and of the domain entities is not part of the provided tree,
so those parts are modelled from the specification; the use case and the CSV
loader are translated from their Python source.
-/

namespace DataAssistant

/-- Content of the tabular dataset: named columns and integer-cell rows.
This is the model of the pandas DataFrame handle (the spec's Dataset Handle:
an opaque read-only reference to in-memory tabular data). -/
structure Frame where
  cols : List String
  rows : List (List Int)
deriving DecidableEq

/-- Values that analysis code manipulates: scalars, text, or a dataset. -/
inductive Value
  | int (n : Int)
  | str (s : String)
  | frame (f : Frame)
deriving DecidableEq

/-- Observable external effects an execution could cause: exactly the ones the
spec's containment property forbids (file touched, socket opened,
environment variable read). -/
inductive Effect
  | fileTouched (path : String)
  | socketOpened (url : String)
  | envRead (name : String)
deriving DecidableEq

/-- Modelled from the spec: the structural representation the static
admission check operates on ("parse the code into a structural
representation").  Expressions cover the allowlisted dataset operations the
spec lists (filtering, aggregation, arithmetic) and the host-access
constructs the policy must reject (filesystem, network, environment access,
dynamic code generation). -/
inductive Expr
  | lit (n : Int)
  | var (x : String)
  | add (a b : Expr)
  | mul (a b : Expr)
  | filterEq (e : Expr) (col : String) (v : Int)
  | sumCol (e : Expr) (col : String)
  | countRows (e : Expr)
  | readFile (path : String)
  | httpGet (url : String)
  | getEnvVar (name : String)
  | evalDyn (src : String)
deriving DecidableEq

/-- Modelled from the spec: statements of the analysis-code fragment, with
sequencing, assignment, module import, and an unbounded loop (the spec's
"while True: pass" scenario). -/
inductive Stmt
  | skip
  | seq (a b : Stmt)
  | assign (x : String) (e : Expr)
  | exprStmt (e : Expr)
  | importMod (m : String)
  | whileTrue (body : Stmt)
deriving DecidableEq

/-- Modelled from the spec: the Execution Policy value object — an
allowed-operation allowlist by name, an allowed-module list, a wall-clock
timeout, and an optional output-size ceiling. -/
structure ExecutionPolicy where
  allowedOps : List String
  allowedModules : List String
  timeout : Nat
  outputCeiling : Option Nat
deriving DecidableEq

/-- Does the expression reference a construct attempting filesystem, network,
or environment access?  Decided structurally over the parsed representation. -/
def exprExternal : Expr → Bool
  | .lit _ => false
  | .var _ => false
  | .add a b => exprExternal a || exprExternal b
  | .mul a b => exprExternal a || exprExternal b
  | .filterEq e _ _ => exprExternal e
  | .sumCol e _ => exprExternal e
  | .countRows e => exprExternal e
  | .readFile _ => true
  | .httpGet _ => true
  | .getEnvVar _ => true
  | .evalDyn _ => false

/-- Does the statement reference a construct attempting filesystem, network,
or environment access? -/
def stmtExternal : Stmt → Bool
  | .skip => false
  | .seq a b => stmtExternal a || stmtExternal b
  | .assign _ e => exprExternal e
  | .exprStmt e => exprExternal e
  | .importMod _ => false
  | .whileTrue body => stmtExternal body

/-- Modelled from the spec: the static admission check on expressions —
default deny; every referenced operation must be on the policy allowlist,
and filesystem, network, environment and dynamic-code constructs are always
outside the allowlist. -/
def exprAdmissible (pol : ExecutionPolicy) : Expr → Bool
  | .lit _ => true
  | .var _ => true
  | .add a b => pol.allowedOps.contains "arith" && exprAdmissible pol a && exprAdmissible pol b
  | .mul a b => pol.allowedOps.contains "arith" && exprAdmissible pol a && exprAdmissible pol b
  | .filterEq e _ _ => pol.allowedOps.contains "filter" && exprAdmissible pol e
  | .sumCol e _ => pol.allowedOps.contains "sum" && exprAdmissible pol e
  | .countRows e => pol.allowedOps.contains "count" && exprAdmissible pol e
  | .readFile _ => false
  | .httpGet _ => false
  | .getEnvVar _ => false
  | .evalDyn _ => false

/-- Modelled from the spec: the static admission check on statements; imports
are allowed only for allowlisted modules. -/
def stmtAdmissible (pol : ExecutionPolicy) : Stmt → Bool
  | .skip => true
  | .seq a b => stmtAdmissible pol a && stmtAdmissible pol b
  | .assign _ e => exprAdmissible pol e
  | .exprStmt e => exprAdmissible pol e
  | .importMod m => pol.allowedModules.contains m
  | .whileTrue body => stmtAdmissible pol body

/-- State threaded through one execution: the private evaluation environment
(seeded with the dataset under the fixed conventional name), the caller's
dataset-handle content, and the trace of observable external effects. -/
structure RunState where
  env : List (String × Value)
  callerData : Frame
  trace : List Effect
deriving DecidableEq

/-- Runtime fault raised by the analysis code while executing. -/
inductive Fault
  | runtime (msg : String)
deriving DecidableEq

/-- Index of a column in a frame. -/
def colIndex (f : Frame) (c : String) : Option Nat :=
  f.cols.findIdx? (fun x => x == c)

/-- Modelled from the spec: evaluation of one expression inside the isolated
context.  Dataset operations act on frame values held in the environment
(the private copy), never on the caller's handle; host-access constructs
would emit an observable effect if they ever ran.  Returns the value or
fault together with the emitted effects. -/
def evalExpr (env : List (String × Value)) : Expr → Except Fault Value × List Effect
  | .lit n => (.ok (.int n), [])
  | .var x =>
    match env.lookup x with
    | some v => (.ok v, [])
    | none => (.error (.runtime ("name is not defined: " ++ x)), [])
  | .add a b =>
    match evalExpr env a with
    | (.error f, ea) => (.error f, ea)
    | (.ok va, ea) =>
      match evalExpr env b with
      | (.error f, eb) => (.error f, ea ++ eb)
      | (.ok vb, eb) =>
        match va, vb with
        | .int x, .int y => (.ok (.int (x + y)), ea ++ eb)
        | _, _ => (.error (.runtime "unsupported operand types for add"), ea ++ eb)
  | .mul a b =>
    match evalExpr env a with
    | (.error f, ea) => (.error f, ea)
    | (.ok va, ea) =>
      match evalExpr env b with
      | (.error f, eb) => (.error f, ea ++ eb)
      | (.ok vb, eb) =>
        match va, vb with
        | .int x, .int y => (.ok (.int (x * y)), ea ++ eb)
        | _, _ => (.error (.runtime "unsupported operand types for mul"), ea ++ eb)
  | .filterEq e col v =>
    match evalExpr env e with
    | (.error f, ea) => (.error f, ea)
    | (.ok ve, ea) =>
      match ve with
      | .frame f =>
        match colIndex f col with
        | some i => (.ok (.frame ⟨f.cols, f.rows.filter (fun r => r.getD i 0 == v)⟩), ea)
        | none => (.error (.runtime ("column not found: " ++ col)), ea)
      | _ => (.error (.runtime "filter applied to a non-dataset value"), ea)
  | .sumCol e col =>
    match evalExpr env e with
    | (.error f, ea) => (.error f, ea)
    | (.ok ve, ea) =>
      match ve with
      | .frame f =>
        match colIndex f col with
        | some i => (.ok (.int (f.rows.foldl (fun acc r => acc + r.getD i 0) 0)), ea)
        | none => (.error (.runtime ("column not found: " ++ col)), ea)
      | _ => (.error (.runtime "sum applied to a non-dataset value"), ea)
  | .countRows e =>
    match evalExpr env e with
    | (.error f, ea) => (.error f, ea)
    | (.ok ve, ea) =>
      match ve with
      | .frame f => (.ok (.int (f.rows.length : Int)), ea)
      | _ => (.error (.runtime "count applied to a non-dataset value"), ea)
  | .readFile p => (.ok (.str ""), [.fileTouched p])
  | .httpGet u => (.ok (.str ""), [.socketOpened u])
  | .getEnvVar n => (.ok (.str ""), [.envRead n])
  | .evalDyn _ => (.error (.runtime "dynamic code execution is not available"), [])

/-- Result of running statements under a tick budget: normal completion with
remaining ticks, a runtime fault, or budget exhaustion (timeout). -/
inductive RunResult
  | done (s : RunState) (remaining : Nat)
  | fault (f : Fault) (s : RunState) (remaining : Nat)
  | timeout (s : RunState)
deriving DecidableEq

/-- Modelled from the spec: bounded execution of a work list of statements,
one abstract clock tick per step, so the policy timeout `T` is a tick
budget.  When the budget is exhausted with work remaining, the run is
abandoned with a timeout. -/
def execList : Nat → RunState → List Stmt → RunResult
  | fuel, s, [] => .done s fuel
  | 0, s, _ :: _ => .timeout s
  | fuel + 1, s, st :: rest =>
    match st with
    | .skip => execList fuel s rest
    | .seq a b => execList fuel s (a :: b :: rest)
    | .assign x e =>
      match evalExpr s.env e with
      | (.ok v, eff) => execList fuel ⟨(x, v) :: s.env, s.callerData, s.trace ++ eff⟩ rest
      | (.error f, eff) => .fault f ⟨s.env, s.callerData, s.trace ++ eff⟩ fuel
    | .exprStmt e =>
      match evalExpr s.env e with
      | (.ok _, eff) => execList fuel ⟨s.env, s.callerData, s.trace ++ eff⟩ rest
      | (.error f, eff) => .fault f ⟨s.env, s.callerData, s.trace ++ eff⟩ fuel
    | .importMod _ => execList fuel s rest
    | .whileTrue body => execList fuel s (body :: .whileTrue body :: rest)

/-- Modelled from the spec: the analysis code as it reaches the executor
after the parse stage — an empty code string, text the parse stage rejected,
or the parsed structural representation. -/
inductive ParsedCode
  | empty
  | unparsable (msg : String)
  | prog (p : Stmt)
deriving DecidableEq

/-- Failure taxonomy of the spec's error-handling design (kinds, not concrete
types). -/
inductive FailureKind
  | invalidInput
  | syntaxError
  | policyViolation
  | runtimeFault
  | timeout
  | resourceExceeded
  | noResult
deriving DecidableEq

/-- Tagged union produced fresh per call: success with the harvested value and
its textual rendering, or a typed failure. -/
inductive ExecutionOutcome
  | success (value : Value) (producedText : String)
  | failure (kind : FailureKind) (message : String)
deriving DecidableEq

/-- Best-effort human-readable rendering of a harvested value. -/
def render : Value → String
  | .int n => toString n
  | .str s => s
  | .frame f => "DataFrame with " ++ toString f.rows.length ++ " rows"

/-- Full observable record of one executor call: the outcome, the trace of
observable external effects, the content of the caller's dataset handle
after the call, and the elapsed ticks of the bounded run. -/
structure ExecResult where
  outcome : ExecutionOutcome
  effects : List Effect
  datasetAfter : Option Frame
  elapsed : Nat
deriving DecidableEq

/-- Fixed diagnostic message for an absent dataset. -/
def missingDatasetMsg : String := "no dataset has been loaded"

/-- Fixed diagnostic message for empty code. -/
def emptyCodeMsg : String := "analysis code is empty"

/-- Fixed diagnostic message for a policy rejection. -/
def policyViolationMsg : String :=
  "code references a construct outside the execution policy allowlist"

/-- Fixed diagnostic message for a timeout. -/
def timeoutMsg : String := "execution exceeded the wall-clock budget"

/-- Fixed diagnostic message for a run that never assigned the result binding. -/
def noResultMsg : String := "code completed without assigning the result binding"

/-- Initial run state of one call: the evaluation environment holds exactly
the dataset bound under the fixed conventional name (a private copy of the
caller's handle content); the caller's handle content is tracked separately;
no effects yet. -/
def initState (d : Frame) : RunState := ⟨[("dataset", .frame d)], d, []⟩

/-- Modelled from the spec: the Sandboxed Executor's execute operation.
Checks the inputs (absent dataset or empty code is an InvalidInput failure),
maps an unparsable fragment to a SyntaxError failure, runs the static
admission check, executes the admitted fragment under the policy tick
budget, and harvests the designated result binding (absence is a NoResult
failure).  Every path returns a typed outcome. -/
def sandboxExecute (pol : ExecutionPolicy) (code : ParsedCode) (dataset : Option Frame) :
    ExecResult :=
  match dataset with
  | none => ⟨.failure .invalidInput missingDatasetMsg, [], none, 0⟩
  | some d =>
    match code with
    | .empty => ⟨.failure .invalidInput emptyCodeMsg, [], some d, 0⟩
    | .unparsable msg => ⟨.failure .syntaxError msg, [], some d, 0⟩
    | .prog p =>
      if stmtAdmissible pol p then
        match execList pol.timeout (initState d) [p] with
        | .done s rem =>
          let out : ExecutionOutcome :=
            match s.env.lookup "result" with
            | none => .failure .noResult noResultMsg
            | some v => .success v (render v)
          ⟨out, s.trace, some s.callerData, pol.timeout - rem⟩
        | .fault f s rem =>
          match f with
          | .runtime msg => ⟨.failure .runtimeFault msg, s.trace, some s.callerData, pol.timeout - rem⟩
        | .timeout s =>
          ⟨.failure .timeout timeoutMsg, s.trace, some s.callerData, pol.timeout + 1⟩
      else
        ⟨.failure .policyViolation policyViolationMsg, [], some d, 0⟩

/-- Caller-facing summary type (`DataSummary` of the domain entities, used by
`ProcessQuestionUseCase` and `ui_components.py` through the fields
`data`, `summary_text`, `execution_successful`, `error_message`). -/
structure DataSummary where
  data : Option Value
  summaryText : String
  executionSuccessful : Bool
  errorMessage : Option String
deriving DecidableEq

/-- Modelled from the spec: truncation of the produced text to the policy's
output-size ceiling, with an explicit truncation marker when exceeded. -/
def truncateText (ceiling : Option Nat) (s : String) : String :=
  match ceiling with
  | none => s
  | some n => if s.length ≤ n then s else s.take n ++ "...[truncated]"

/-- Fixed human-readable phrase per failure kind, used as the summary text. -/
def failurePhrase : FailureKind → String
  | .invalidInput => "Invalid input for analysis"
  | .syntaxError => "Analysis code failed to parse"
  | .policyViolation => "Analysis code was rejected by the execution policy"
  | .runtimeFault => "Analysis code raised an error"
  | .timeout => "Analysis code exceeded the time budget"
  | .resourceExceeded => "Analysis result exceeded the resource ceiling"
  | .noResult => "Analysis code produced no result"

/-- Modelled from the spec: the Result Classifier.  The ambient clock value at
the moment of the call is passed in to model the host environment; the
classifier does not read it (the spec forbids timestamp injection), so the
summary depends only on the outcome. -/
def classifyAt (pol : ExecutionPolicy) (now : Nat) : ExecutionOutcome → DataSummary
  | .success v text => ⟨some v, truncateText pol.outputCeiling text, true, none⟩
  | .failure k msg => ⟨none, failurePhrase k, false, some msg⟩

/-- Modelled from the spec: the single inbound entry point
`execute_code(code, dataset) -> DataSummary` — the Sandboxed Executor
followed by the Result Classifier. -/
def executeCode (pol : ExecutionPolicy) (code : ParsedCode) (dataset : Option Frame)
    (now : Nat) : DataSummary :=
  classifyAt pol now (sandboxExecute pol code dataset).outcome

/-- Modelled from the spec: the exceptions of the domain layer (their classes
live in `src/domain/repositories`, absent from the provided tree; the
constructors follow the names used by the use case and the CSV loader). -/
inductive Exc
  | chartGenerationError (msg : String)
  | dataLoadError (msg : String)
  | datasetNotLoadedError (msg : String)
  | otherError (msg : String)
deriving DecidableEq

/-- Message carried by an exception (the model of `str(e)`). -/
def Exc.message : Exc → String
  | .chartGenerationError m => m
  | .dataLoadError m => m
  | .datasetNotLoadedError m => m
  | .otherError m => m

/-- Modelled from the spec: the `DatasetInfo` domain entity (absent from the
provided tree); its fields mirror the construction in
`CSVLoader.load_dataset`: filename, column list, shape, the first rows as
sample data, and per-column dtype names. -/
structure DatasetInfo where
  filename : String
  columns : List String
  shape : Nat × Nat
  sampleData : List (List Int)
  columnTypes : List (String × String)
deriving DecidableEq

/-- Construction of the dataset info from a loaded frame, translated from
`CSVLoader.load_dataset` lines 52-60: `head()` is the first five rows, and
every column of the integer-cell model has dtype name `int64`. -/
def mkDatasetInfo (filename : String) (f : Frame) : DatasetInfo :=
  ⟨filename, f.cols, (f.rows.length, f.cols.length), f.rows.take 5,
   f.cols.map (fun c => (c, "int64"))⟩

/-- Faults of the read phase of `CSVLoader.load_dataset`: the local branch
(`pd.read_csv`) can raise `FileNotFoundError`, `EmptyDataError` or
`ParserError`; the URL branch (`_load_from_url`) raises `DataLoadError`
directly (carried here as `wrappedLoad`); anything else is `otherFault`. -/
inductive ReadFault
  | fileNotFound
  | emptyData
  | parseFault (msg : String)
  | wrappedLoad (msg : String)
  | otherFault (msg : String)
deriving DecidableEq

/-- Mutable state of a `CSVLoader` instance: the `_dataset` and
`_dataset_info` fields. -/
structure LoaderState where
  dataset : Option Frame
  datasetInfo : Option DatasetInfo
deriving DecidableEq

/-- Filename extraction for the URL branch, translated from
`CSVLoader._extract_filename_from_url` (the `urlparse(url).path` step is
approximated by splitting the whole URL on slashes; query strings are not
modelled). -/
def extractFilenameFromUrl (url : String) : String :=
  let fn := (url.splitOn "/").getLastD ""
  if fn.endsWith ".csv" then fn else "downloaded_dataset.csv"

/-- Filename extraction for the local branch, translated from
`file_source.split(os.sep)[-1]` with the platform separator `/`. -/
def localFilename (fileSource : String) : String :=
  (fileSource.splitOn "/").getLastD fileSource

/-- Translation of `CSVLoader.load_dataset`.  The outcome of the read phase
(`pd.read_csv` or `_load_from_url`) is passed in as `readResult`, and
`isUrl` is the value of `_is_url(file_source)`.  On a successful read the
loader stores the frame and then the freshly built info (lines 49-62); on a
read fault it raises a `DataLoadError` whose message follows the source's
`except` clauses (lines 63-70; a `DataLoadError` coming out of
`_load_from_url` is itself an `Exception`, so it is re-wrapped by the final
clause).  Returns the raised-or-returned value together with the loader
state after the call. -/
def loadDataset (st : LoaderState) (isUrl : Bool) (fileSource : String)
    (readResult : Except ReadFault Frame) : Except Exc DatasetInfo × LoaderState :=
  match readResult with
  | .ok dataset =>
    let filename := if isUrl then extractFilenameFromUrl fileSource else localFilename fileSource
    let st1 := { st with dataset := some dataset }
    let info := mkDatasetInfo filename dataset
    let st2 := { st1 with datasetInfo := some info }
    (.ok info, st2)
  | .error .fileNotFound =>
    (.error (.dataLoadError ("Dataset file not found: " ++ fileSource)), st)
  | .error .emptyData =>
    (.error (.dataLoadError "Dataset file is empty"), st)
  | .error (.parseFault m) =>
    (.error (.dataLoadError ("Error parsing CSV file: " ++ m)), st)
  | .error (.wrappedLoad m) =>
    (.error (.dataLoadError ("Unexpected error loading dataset: " ++ m)), st)
  | .error (.otherFault m) =>
    (.error (.dataLoadError ("Unexpected error loading dataset: " ++ m)), st)

/-- Translation of `CSVLoader.get_dataset`: the stored frame, or a
`DatasetNotLoadedError` when none has been loaded. -/
def getDataset (st : LoaderState) : Except Exc Frame :=
  match st.dataset with
  | none => .error (.datasetNotLoadedError
      "No dataset has been loaded. Call load_dataset() first.")
  | some d => .ok d

/-- Modelled from the spec: the `Question` domain entity (absent from the
provided tree), as constructed by the use case. -/
structure Question where
  text : String
  language : String
deriving DecidableEq

/-- Modelled from the spec: the `Answer` domain entity (absent from the
provided tree); the confidence score is modelled as an integer. -/
structure Answer where
  text : String
  confidenceScore : Int
  explanation : String
deriving DecidableEq

/-- Chart kinds of the `VisualizationType` domain entity, as used by the use
case and the Plotly chart generator. -/
inductive VisualizationType
  | bar
  | line
  | pie
  | scatter
deriving DecidableEq

/-- Modelled from the spec: the `Visualization` domain entity (absent from the
provided tree); the chart object itself is out of scope, its descriptive
fields are kept. -/
structure Visualization where
  chartType : VisualizationType
  title : String
  description : String
deriving DecidableEq

/-- Modelled from the spec: the `AnalysisResult` domain entity (absent from
the provided tree), as constructed by the use case; the execution time is
modelled in abstract clock units. -/
structure AnalysisResult where
  question : Question
  answer : Answer
  dataSummary : DataSummary
  visualization : Option Visualization
  executionTime : Nat
deriving DecidableEq

/-- Lower-casing of a string, character by character (the model of
`str.lower()`). -/
def lowerStr (s : String) : String := ⟨s.toList.map Char.toLower⟩

/-- Character-list comparison: does the second list start with the first? -/
def leadsWith : List Char → List Char → Bool
  | [], _ => true
  | _ :: _, [] => false
  | a :: as, b :: bs => a == b && leadsWith as bs

/-- Does the list contain the given contiguous character sequence? -/
def containsChars (needle : List Char) : List Char → Bool
  | [] => needle.isEmpty
  | c :: rest => leadsWith needle (c :: rest) || containsChars needle rest

/-- Substring containment on strings (the model of the Python `in` operator
on strings). -/
def containsKw (hay kw : String) : Bool := containsChars kw.toList hay.toList

/-- Translation of `ProcessQuestionUseCase._suggest_chart_type`: keyword
search on the lower-cased question text. -/
def suggestChartType (questionText : String) : VisualizationType :=
  let q := lowerStr questionText
  if ["trend", "over time", "timeline", "series"].any (fun kw => containsKw q kw) then
    .line
  else if ["compare", "vs", "versus", "difference"].any (fun kw => containsKw q kw) then
    .bar
  else if ["proportion", "percentage", "share", "distribution"].any (fun kw => containsKw q kw) then
    .pie
  else
    .bar

/-- Collaborator services of one `ProcessQuestionUseCase.execute` call,
modelled as the results their calls produce on this invocation: the data
repository calls, the prompt build, the LLM call (returning the answer and
the analysis code as it reaches the executor), the chart generator (a
function of chart type, data and description), the executor policy of the
wired `SandboxedCodeExecutor`, and the elapsed wall-clock reading used for
the execution time. -/
structure Services where
  loadDataset : Except Exc DatasetInfo
  getDataset : Except Exc Frame
  buildPrompt : Except Exc String
  llmAnswer : Except Exc (Answer × ParsedCode)
  chartGen : VisualizationType → Value → String → Except Exc Visualization
  policy : ExecutionPolicy
  clock : Nat

/-- Fallback answer of the use case's outer `except` path (lines 134-138). -/
def errorAnswer (e : Exc) : Answer :=
  ⟨"An error occurred while processing your question: " ++ e.message, 0,
   "Processing failed due to an error."⟩

/-- Fallback summary of the use case's outer `except` path (lines 140-145). -/
def errorSummary (e : Exc) : DataSummary :=
  ⟨none, "Processing failed", false, some e.message⟩

/-- Translation of the `try` block of `ProcessQuestionUseCase.execute`
(lines 90-129): load the dataset info and the dataset, build the prompt,
call the LLM, execute the generated code through the wired executor, then
generate a visualization only when the summary reports success with data
present — a `ChartGenerationError` from the chart generator is swallowed
(`except ChartGenerationError: pass`), any other exception propagates. -/
def processQuestionBody (sv : Services) (questionText : String) (question : Question) :
    Except Exc AnalysisResult :=
  match sv.loadDataset with
  | .error e => .error e
  | .ok _datasetInfo =>
    match sv.getDataset with
    | .error e => .error e
    | .ok dataset =>
      match sv.buildPrompt with
      | .error e => .error e
      | .ok _prompt =>
        match sv.llmAnswer with
        | .error e => .error e
        | .ok (answer, analysisCode) =>
          let dataSummary := executeCode sv.policy analysisCode (some dataset) sv.clock
          match dataSummary.executionSuccessful, dataSummary.data with
          | true, some dt =>
            match sv.chartGen (suggestChartType questionText) dt answer.text with
            | .ok v => .ok ⟨question, answer, dataSummary, some v, sv.clock⟩
            | .error (.chartGenerationError _) =>
              .ok ⟨question, answer, dataSummary, none, sv.clock⟩
            | .error e => .error e
          | _, _ => .ok ⟨question, answer, dataSummary, none, sv.clock⟩

/-- Translation of `ProcessQuestionUseCase.execute`: the `try` body wrapped in
the outer `except Exception` clause, which converts any raised exception
into a returned `AnalysisResult` carrying the fallback answer and summary
(lines 130-153). -/
def processQuestionExecute (sv : Services) (questionText : String) :
    Except Exc AnalysisResult :=
  let question : Question := ⟨questionText, "en"⟩
  match processQuestionBody sv questionText question with
  | .ok r => .ok r
  | .error e => .ok ⟨question, errorAnswer e, errorSummary e, none, sv.clock⟩

/-! Auxiliary definitions used by the stated properties. -/

/-- State carried by a run result. -/
def resState : RunResult → RunState
  | .done s _ => s
  | .fault _ s _ => s
  | .timeout s => s

/-- Did the bounded run exhaust its tick budget? -/
def timedOut : RunResult → Bool
  | .timeout _ => true
  | _ => false

/-- A code fragment loops indefinitely on a dataset when it fails to complete
under every tick budget. -/
def loopsForever (p : Stmt) (d : Frame) : Prop :=
  ∀ fuel : Nat, timedOut (execList fuel (initState d) [p]) = true

/-- The spec invariant on caller-facing summaries: success is reported exactly
when no error message is present, and data is present only on success. -/
def goodSummary (s : DataSummary) : Prop :=
  (s.executionSuccessful = false ↔ s.errorMessage ≠ none) ∧
  (s.data ≠ none → s.executionSuccessful = true)

/-! Helper lemmas. -/

/-- The bounded run never changes the caller's dataset-handle content: every
state constructed by `execList` keeps the incoming `callerData`. -/
theorem execList_callerData (fuel : Nat) :
    ∀ (s : RunState) (l : List Stmt),
      (resState (execList fuel s l)).callerData = s.callerData := by
  induction fuel with
  | zero =>
    intro s l
    cases l <;> simp [execList, resState]
  | succ n ih =>
    intro s l
    cases l with
    | nil => simp [execList, resState]
    | cons st rest =>
      cases st with
      | skip => simpa [execList] using ih s rest
      | seq a b => simpa [execList] using ih s (a :: b :: rest)
      | assign x e =>
        simp only [execList]
        split
        · exact ih _ rest
        · simp [resState]
      | exprStmt e =>
        simp only [execList]
        split
        · exact ih _ rest
        · simp [resState]
      | importMod m => simpa [execList] using ih s rest
      | whileTrue body => simpa [execList] using ih s (body :: .whileTrue body :: rest)

/-- An expression attempting filesystem, network, or environment access is
never admitted by the structural check, whatever the policy allowlist. -/
theorem exprExternal_not_admissible (pol : ExecutionPolicy) (e : Expr)
    (h : exprExternal e = true) : exprAdmissible pol e = false := by
  induction e with
  | lit n => simp [exprExternal] at h
  | var x => simp [exprExternal] at h
  | add a b iha ihb =>
    simp only [exprExternal, Bool.or_eq_true] at h
    rcases h with h | h
    · simp [exprAdmissible, iha h]
    · simp [exprAdmissible, ihb h]
  | mul a b iha ihb =>
    simp only [exprExternal, Bool.or_eq_true] at h
    rcases h with h | h
    · simp [exprAdmissible, iha h]
    · simp [exprAdmissible, ihb h]
  | filterEq e col v ih =>
    simp only [exprExternal] at h
    simp [exprAdmissible, ih h]
  | sumCol e col ih =>
    simp only [exprExternal] at h
    simp [exprAdmissible, ih h]
  | countRows e ih =>
    simp only [exprExternal] at h
    simp [exprAdmissible, ih h]
  | readFile p => simp [exprAdmissible]
  | httpGet u => simp [exprAdmissible]
  | getEnvVar n => simp [exprAdmissible]
  | evalDyn src => simp [exprExternal] at h

/-- A statement attempting filesystem, network, or environment access is
never admitted by the structural check, whatever the policy allowlist. -/
theorem stmtExternal_not_admissible (pol : ExecutionPolicy) (st : Stmt)
    (h : stmtExternal st = true) : stmtAdmissible pol st = false := by
  induction st with
  | skip => simp [stmtExternal] at h
  | seq a b iha ihb =>
    simp only [stmtExternal, Bool.or_eq_true] at h
    rcases h with h | h
    · simp [stmtAdmissible, iha h]
    · simp [stmtAdmissible, ihb h]
  | assign x e => exact exprExternal_not_admissible pol e h
  | exprStmt e => exact exprExternal_not_admissible pol e h
  | importMod m => simp [stmtExternal] at h
  | whileTrue body ih =>
    simp only [stmtExternal] at h
    simpa [stmtAdmissible] using ih h

/-- The spec scenario `while True: pass` never completes under any tick
budget: alternating between the loop head and its unfolding consumes every
budget. -/
theorem whileTrue_skip_diverges (fuel : Nat) :
    ∀ s : RunState,
      timedOut (execList fuel s [.whileTrue .skip]) = true ∧
      timedOut (execList fuel s [.skip, .whileTrue .skip]) = true := by
  induction fuel with
  | zero =>
    intro s
    exact ⟨rfl, rfl⟩
  | succ n ih =>
    intro s
    constructor
    · simpa [execList] using (ih s).2
    · simpa [execList] using (ih s).1

/-- Every summary the Result Classifier produces satisfies the caller-facing
invariant. -/
theorem classifyAt_good (pol : ExecutionPolicy) (now : Nat) (o : ExecutionOutcome) :
    goodSummary (classifyAt pol now o) := by
  cases o with
  | success v t => simp [classifyAt, goodSummary]
  | failure k m => simp [classifyAt, goodSummary]

/-- Every analysis result returned by the try-block translation carries a
summary produced by the classifier, hence a good one. -/
theorem processQuestionBody_summary (sv : Services) (qt : String) (q : Question)
    (r : AnalysisResult) (h : processQuestionBody sv qt q = .ok r) :
    goodSummary r.dataSummary := by
  unfold processQuestionBody at h
  split at h
  · exact absurd h (by simp)
  · split at h
    · exact absurd h (by simp)
    · split at h
      · exact absurd h (by simp)
      · split at h
        · exact absurd h (by simp)
        · dsimp only at h
          split at h
          · split at h
            · injection h with h2
              subst h2
              exact classifyAt_good sv.policy sv.clock _
            · injection h with h2
              subst h2
              exact classifyAt_good sv.policy sv.clock _
            · exact absurd h (by simp)
          · injection h with h2
            subst h2
            exact classifyAt_good sv.policy sv.clock _

/-! Claim theorems. -/

/-- C1: for every code fragment attempting filesystem, network, or
environment access, the executor returns `Failure(PolicyViolation)`, the
fragment produces no observable external effect and leaves the caller's
dataset untouched, and the rejection is decided by the structural admission
check over the parsed representation (the fragment fails the check for
every policy allowlist). -/
theorem containment_policy_violation (pol : ExecutionPolicy) (p : Stmt) (d : Frame)
    (h : stmtExternal p = true) :
    sandboxExecute pol (.prog p) (some d) =
      ⟨.failure .policyViolation policyViolationMsg, [], some d, 0⟩ ∧
    stmtAdmissible pol p = false := by
  have hadm := stmtExternal_not_admissible pol p h
  refine ⟨?_, hadm⟩
  simp [sandboxExecute, hadm]

/-- Witness for C1: the fragment `read_file("/etc/data.txt")` is rejected with
a policy violation, no effect, and an unchanged dataset. -/
theorem containment_policy_violation_witness :
    stmtExternal (.exprStmt (.readFile "/etc/data.txt")) = true ∧
    (sandboxExecute ⟨["filter", "sum", "count", "arith"], [], 5, none⟩
        (.prog (.exprStmt (.readFile "/etc/data.txt"))) (some ⟨["A"], [[1]]⟩) =
      ⟨.failure .policyViolation policyViolationMsg, [], some ⟨["A"], [[1]]⟩, 0⟩ ∧
     stmtAdmissible ⟨["filter", "sum", "count", "arith"], [], 5, none⟩
        (.exprStmt (.readFile "/etc/data.txt")) = false) :=
  ⟨by decide,
   containment_policy_violation ⟨["filter", "sum", "count", "arith"], [], 5, none⟩
     (.exprStmt (.readFile "/etc/data.txt")) ⟨["A"], [[1]]⟩ (by decide)⟩

/-- C2: no fault escapes as an unhandled exception: the question-processing
call always returns an `AnalysisResult` value for every collaborator
behavior, and every executor call produces a typed outcome (a success or a
typed failure). -/
theorem no_fault_escapes (sv : Services) (questionText : String) :
    (∃ r : AnalysisResult, processQuestionExecute sv questionText = .ok r) ∧
    (∀ (pol : ExecutionPolicy) (code : ParsedCode) (dataset : Option Frame),
      (∃ v t, (sandboxExecute pol code dataset).outcome = .success v t) ∨
      (∃ k m, (sandboxExecute pol code dataset).outcome = .failure k m)) := by
  constructor
  · unfold processQuestionExecute
    dsimp only
    cases h : processQuestionBody sv questionText ⟨questionText, "en"⟩ with
    | ok r => exact ⟨r, rfl⟩
    | error e => exact ⟨_, rfl⟩
  · intro pol code dataset
    cases h : (sandboxExecute pol code dataset).outcome with
    | success v t => exact .inl ⟨v, t, rfl⟩
    | failure k m => exact .inr ⟨k, m, rfl⟩

/-- C3: every `DataSummary` produced for the caller satisfies the invariant:
`executionSuccessful` is false exactly when an error message is present,
and data is present only on success. -/
theorem summary_invariant (sv : Services) (questionText : String) (r : AnalysisResult)
    (h : processQuestionExecute sv questionText = .ok r) :
    goodSummary r.dataSummary := by
  unfold processQuestionExecute at h
  dsimp only at h
  split at h
  · next r2 heq =>
      injection h with h2
      subst h2
      exact processQuestionBody_summary sv questionText ⟨questionText, "en"⟩ r2 heq
  · next e heq =>
      injection h with h2
      subst h2
      simp [goodSummary, errorSummary]

/-- Witness for C3: on a run whose data loading raises, the fallback summary
still satisfies the invariant. -/
theorem summary_invariant_witness :
    processQuestionExecute
        ⟨.error (.dataLoadError "boom"), .error (.datasetNotLoadedError "nl"), .ok "p",
         .error (.otherError "llm"), fun _ _ _ => .error (.chartGenerationError "c"),
         ⟨[], [], 3, none⟩, 7⟩ "q" =
      .ok ⟨⟨"q", "en"⟩,
           ⟨"An error occurred while processing your question: boom", 0,
            "Processing failed due to an error."⟩,
           ⟨none, "Processing failed", false, some "boom"⟩, none, 7⟩ ∧
    goodSummary (⟨none, "Processing failed", false, some "boom"⟩ : DataSummary) :=
  ⟨rfl,
   summary_invariant
     ⟨.error (.dataLoadError "boom"), .error (.datasetNotLoadedError "nl"), .ok "p",
      .error (.otherError "llm"), fun _ _ _ => .error (.chartGenerationError "c"),
      ⟨[], [], 3, none⟩, 7⟩ "q"
     ⟨⟨"q", "en"⟩,
      ⟨"An error occurred while processing your question: boom", 0,
       "Processing failed due to an error."⟩,
      ⟨none, "Processing failed", false, some "boom"⟩, none, 7⟩ rfl⟩

/-- C4: the executor never mutates the caller's dataset: after every call the
dataset handle content equals its value before the call, whatever the code
fragment does. -/
theorem dataset_not_mutated (pol : ExecutionPolicy) (code : ParsedCode) (d : Frame) :
    (sandboxExecute pol code (some d)).datasetAfter = some d := by
  cases code with
  | empty => rfl
  | unparsable msg => rfl
  | prog p =>
    unfold sandboxExecute
    by_cases hadm : stmtAdmissible pol p = true
    · simp only [hadm, if_true]
      have hpres := execList_callerData pol.timeout (initState d) [p]
      cases hrun : execList pol.timeout (initState d) [p] with
      | done s rem =>
        rw [hrun] at hpres
        simpa [resState, initState] using congrArg some hpres
      | fault f s rem =>
        rw [hrun] at hpres
        cases f with
        | runtime m => simpa [resState, initState] using congrArg some hpres
      | timeout s =>
        rw [hrun] at hpres
        simpa [resState, initState] using congrArg some hpres
    · simp [hadm]

/-- C5: a fragment that loops indefinitely is abandoned: the executor returns
`Failure(Timeout)` and the elapsed clock is at most the policy budget plus
one abort tick. -/
theorem timeout_bound (pol : ExecutionPolicy) (p : Stmt) (d : Frame)
    (hadm : stmtAdmissible pol p = true) (hloop : loopsForever p d) :
    (sandboxExecute pol (.prog p) (some d)).outcome = .failure .timeout timeoutMsg ∧
    (sandboxExecute pol (.prog p) (some d)).elapsed ≤ pol.timeout + 1 := by
  have h := hloop pol.timeout
  unfold sandboxExecute
  simp only [hadm, if_true]
  cases hrun : execList pol.timeout (initState d) [p] with
  | done s rem => rw [hrun] at h; exact absurd h (by simp [timedOut])
  | fault f s rem => rw [hrun] at h; exact absurd h (by simp [timedOut])
  | timeout s => exact ⟨rfl, Nat.le_refl _⟩

/-- Witness for C5: `while True: pass` under a three-tick budget times out
within the budget plus one abort tick. -/
theorem timeout_bound_witness :
    stmtAdmissible ⟨[], [], 3, none⟩ (.whileTrue .skip) = true ∧
    loopsForever (.whileTrue .skip) ⟨["A"], [[1]]⟩ ∧
    ((sandboxExecute ⟨[], [], 3, none⟩ (.prog (.whileTrue .skip))
        (some ⟨["A"], [[1]]⟩)).outcome = .failure .timeout timeoutMsg ∧
     (sandboxExecute ⟨[], [], 3, none⟩ (.prog (.whileTrue .skip))
        (some ⟨["A"], [[1]]⟩)).elapsed ≤ 3 + 1) :=
  ⟨by decide, fun fuel => (whileTrue_skip_diverges fuel (initState ⟨["A"], [[1]]⟩)).1,
   timeout_bound ⟨[], [], 3, none⟩ (.whileTrue .skip) ⟨["A"], [[1]]⟩ (by decide)
     (fun fuel => (whileTrue_skip_diverges fuel (initState ⟨["A"], [[1]]⟩)).1)⟩

/-- C6: an absent dataset yields `Failure(InvalidInput)` for every code
string, and empty code yields `Failure(InvalidInput)` for every dataset;
the executor returns a value rather than raising. -/
theorem invalid_input (pol : ExecutionPolicy) (code : ParsedCode) (d : Frame) :
    (sandboxExecute pol code none).outcome = .failure .invalidInput missingDatasetMsg ∧
    (sandboxExecute pol .empty (some d)).outcome = .failure .invalidInput emptyCodeMsg :=
  ⟨rfl, rfl⟩

/-- C7: a policy-compliant fragment that completes normally without assigning
the designated result binding yields `Failure(NoResult)`, an outcome kind
distinct from the crash kind `RuntimeFault`. -/
theorem no_result_binding (pol : ExecutionPolicy) (p : Stmt) (d : Frame)
    (s : RunState) (rem : Nat)
    (hadm : stmtAdmissible pol p = true)
    (hrun : execList pol.timeout (initState d) [p] = .done s rem)
    (hres : s.env.lookup "result" = none) :
    (sandboxExecute pol (.prog p) (some d)).outcome = .failure .noResult noResultMsg ∧
    FailureKind.noResult ≠ FailureKind.runtimeFault := by
  refine ⟨?_, by decide⟩
  unfold sandboxExecute
  simp only [hadm, if_true, hrun, hres]

/-- Witness for C7: a fragment that only assigns `x` completes normally and is
classified `NoResult`. -/
theorem no_result_binding_witness :
    stmtAdmissible ⟨["arith"], [], 5, none⟩ (.assign "x" (.lit 1)) = true ∧
    execList 5 (initState ⟨["A"], [[1]]⟩) [.assign "x" (.lit 1)] =
      .done ⟨[("x", .int 1), ("dataset", .frame ⟨["A"], [[1]]⟩)], ⟨["A"], [[1]]⟩, []⟩ 4 ∧
    List.lookup "result" [("x", Value.int 1), ("dataset", .frame ⟨["A"], [[1]]⟩)] = none ∧
    ((sandboxExecute ⟨["arith"], [], 5, none⟩ (.prog (.assign "x" (.lit 1)))
        (some ⟨["A"], [[1]]⟩)).outcome = .failure .noResult noResultMsg ∧
     FailureKind.noResult ≠ FailureKind.runtimeFault) :=
  ⟨by decide, rfl, rfl,
   no_result_binding ⟨["arith"], [], 5, none⟩ (.assign "x" (.lit 1)) ⟨["A"], [[1]]⟩
     ⟨[("x", .int 1), ("dataset", .frame ⟨["A"], [[1]]⟩)], ⟨["A"], [[1]]⟩, []⟩ 4
     (by decide) rfl rfl⟩

/-- C8: the Result Classifier is deterministic and idempotent: two
applications to the same outcome, at any two ambient clock instants, yield
identical summaries — no timestamp or other ambient state is injected. -/
theorem classifier_deterministic (pol : ExecutionPolicy) (t1 t2 : Nat)
    (o : ExecutionOutcome) : classifyAt pol t1 o = classifyAt pol t2 o := rfl

/-- C9: a chart-generation failure never fails the analysis: when the
pipeline reaches a successful summary with data and the chart generator
raises `ChartGenerationError`, the use case still returns a result carrying
exactly the executor's summary and no visualization; and in every returned
result a visualization is present only when the summary reports success
with data present. -/
theorem chart_failure_isolated :
    (∀ (sv : Services) (qt : String) (di : DatasetInfo) (ds : Frame) (pr : String)
        (ans : Answer) (code : ParsedCode) (dt : Value) (m : String),
      sv.loadDataset = .ok di → sv.getDataset = .ok ds → sv.buildPrompt = .ok pr →
      sv.llmAnswer = .ok (ans, code) →
      (executeCode sv.policy code (some ds) sv.clock).executionSuccessful = true →
      (executeCode sv.policy code (some ds) sv.clock).data = some dt →
      sv.chartGen (suggestChartType qt) dt ans.text = .error (.chartGenerationError m) →
      processQuestionExecute sv qt =
        .ok ⟨⟨qt, "en"⟩, ans, executeCode sv.policy code (some ds) sv.clock, none, sv.clock⟩) ∧
    (∀ (sv : Services) (qt : String) (r : AnalysisResult),
      processQuestionExecute sv qt = .ok r → r.visualization ≠ none →
      r.dataSummary.executionSuccessful = true ∧ r.dataSummary.data ≠ none) := by
  constructor
  · intro sv qt di ds pr ans code dt m h1 h2 h3 h4 h5 h6 h7
    unfold processQuestionExecute
    dsimp only
    have hbody : processQuestionBody sv qt ⟨qt, "en"⟩ =
        .ok ⟨⟨qt, "en"⟩, ans, executeCode sv.policy code (some ds) sv.clock, none, sv.clock⟩ := by
      unfold processQuestionBody
      rw [h1, h2, h3, h4]
      dsimp only
      rw [h5, h6]
      dsimp only
      rw [h7]
    rw [hbody]
  · intro sv qt r h hvis
    unfold processQuestionExecute at h
    dsimp only at h
    split at h
    · next r2 heq =>
        injection h with h2
        subst h2
        unfold processQuestionBody at heq
        split at heq
        · exact absurd heq (by simp)
        · split at heq
          · exact absurd heq (by simp)
          · split at heq
            · exact absurd heq (by simp)
            · split at heq
              · exact absurd heq (by simp)
              · dsimp only at heq
                split at heq
                · next hsucc hdata =>
                    split at heq
                    · injection heq with h3
                      subst h3
                      exact ⟨hsucc, by simp [hdata]⟩
                    · injection heq with h3
                      subst h3
                      exact absurd rfl hvis
                    · exact absurd heq (by simp)
                · next a b hne =>
                    injection heq with h3
                    subst h3
                    exact absurd rfl hvis
    · next e heq =>
        injection h with h2
        subst h2
        exact absurd rfl hvis

/-- Witness for C9: a concrete run whose code assigns `result = 5` and whose
chart generator raises `ChartGenerationError` still returns the executor's
summary with no visualization. -/
theorem chart_failure_isolated_witness :
    (⟨.ok ⟨"f.csv", ["A"], (1, 1), [[1]], [("A", "int64")]⟩, .ok ⟨["A"], [[1]]⟩, .ok "p",
      .ok (⟨"ans", 0, "ex"⟩, .prog (.assign "result" (.lit 5))),
      fun _ _ _ => .error (.chartGenerationError "boom"),
      ⟨["arith"], [], 5, some 100⟩, 7⟩ : Services).loadDataset =
        .ok ⟨"f.csv", ["A"], (1, 1), [[1]], [("A", "int64")]⟩ ∧
    (executeCode ⟨["arith"], [], 5, some 100⟩ (.prog (.assign "result" (.lit 5)))
        (some ⟨["A"], [[1]]⟩) 7).executionSuccessful = true ∧
    (executeCode ⟨["arith"], [], 5, some 100⟩ (.prog (.assign "result" (.lit 5)))
        (some ⟨["A"], [[1]]⟩) 7).data = some (.int 5) ∧
    processQuestionExecute
      ⟨.ok ⟨"f.csv", ["A"], (1, 1), [[1]], [("A", "int64")]⟩, .ok ⟨["A"], [[1]]⟩, .ok "p",
       .ok (⟨"ans", 0, "ex"⟩, .prog (.assign "result" (.lit 5))),
       fun _ _ _ => .error (.chartGenerationError "boom"),
       ⟨["arith"], [], 5, some 100⟩, 7⟩ "q" =
      .ok ⟨⟨"q", "en"⟩, ⟨"ans", 0, "ex"⟩,
           executeCode ⟨["arith"], [], 5, some 100⟩ (.prog (.assign "result" (.lit 5)))
             (some ⟨["A"], [[1]]⟩) 7, none, 7⟩ :=
  ⟨rfl, rfl, rfl,
   chart_failure_isolated.1
     ⟨.ok ⟨"f.csv", ["A"], (1, 1), [[1]], [("A", "int64")]⟩, .ok ⟨["A"], [[1]]⟩, .ok "p",
      .ok (⟨"ans", 0, "ex"⟩, .prog (.assign "result" (.lit 5))),
      fun _ _ _ => .error (.chartGenerationError "boom"),
      ⟨["arith"], [], 5, some 100⟩, 7⟩ "q"
     ⟨"f.csv", ["A"], (1, 1), [[1]], [("A", "int64")]⟩ ⟨["A"], [[1]]⟩ "p"
     ⟨"ans", 0, "ex"⟩ (.prog (.assign "result" (.lit 5))) (.int 5) "boom"
     rfl rfl rfl rfl rfl rfl rfl⟩

/-- C10: `CSVLoader.load_dataset` is atomic on failure: when it raises a
`DataLoadError` the stored dataset and info are unchanged, so a subsequent
`get_dataset` behaves exactly as before the call. -/
theorem load_failure_atomic (st : LoaderState) (isUrl : Bool) (src : String)
    (rr : Except ReadFault Frame) (e : Exc)
    (h : (loadDataset st isUrl src rr).1 = .error e) :
    (loadDataset st isUrl src rr).2 = st ∧
    getDataset (loadDataset st isUrl src rr).2 = getDataset st := by
  cases rr with
  | ok f => exact absurd h (by simp [loadDataset])
  | error rf => cases rf <;> exact ⟨rfl, rfl⟩

/-- Witness for C10: a missing-file load failure leaves a fresh loader
unchanged, and `get_dataset` still raises `DatasetNotLoadedError`. -/
theorem load_failure_atomic_witness :
    (loadDataset ⟨none, none⟩ false "data.csv" (.error .fileNotFound)).1 =
      .error (.dataLoadError "Dataset file not found: data.csv") ∧
    ((loadDataset ⟨none, none⟩ false "data.csv" (.error .fileNotFound)).2 = ⟨none, none⟩ ∧
     getDataset (loadDataset ⟨none, none⟩ false "data.csv" (.error .fileNotFound)).2 =
       getDataset ⟨none, none⟩) :=
  ⟨rfl,
   load_failure_atomic ⟨none, none⟩ false "data.csv" (.error .fileNotFound)
     (.dataLoadError "Dataset file not found: data.csv") rfl⟩

end DataAssistant
